import Mathlib

/-!
# Smart Card Detective: `utils.c`

A shallow embedding of `src/avrsrc/utils.c` (atomic 16-bit register access,
the two sleep routines and the time-logging adapter) as state-passing
functions over an explicit machine state, followed by the properties proved
about them.

Every primitive the C code executes (a register access, `cli()`, a call into
the HAL, ...) appends one `Step` to a ghost trace, together with a snapshot
of the machine state right before the step runs.  The trace never influences
the computation; it makes the order of steps and the state "at the step
where ..." expressible.
-/

namespace SCD

/-! ## Data model -/

/-- Handle of a 16-bit memory-mapped register (`volatile uint16_t *`).
`OCR3A` and `TCNT3` are the two Timer3 registers `utils.c` names; `other`
stands for any further 16-bit register a caller may pass. -/
inductive Reg16 where
  | OCR3A : Reg16
  | TCNT3 : Reg16
  | other (addr : Nat) : Reg16
  deriving DecidableEq, Repr

/-- The sleep modes selectable with `set_sleep_mode` (avr-libc). -/
inductive SleepMode where
  | IDLE : SleepMode
  | ADC : SleepMode
  | PWR_DOWN : SleepMode
  | PWR_SAVE : SleepMode
  | STANDBY : SleepMode
  | EXT_STANDBY : SleepMode
  deriving DecidableEq, Repr

/-- One record of a log: a category tag and its data bytes, in order. -/
structure LogRecord where
  tag : Nat
  bytes : List Nat
  deriving DecidableEq, Repr

/-- The machine state `utils.c` reads and writes.

* `SREG`: the AVR status register (bit 7 is the global interrupt enable flag);
* `reg16`: the contents of the 16-bit registers;
* `TCCR3A`, `TCCR3B`, `TIMSK3`: the 8-bit Timer3 control and mask registers;
* `sleepMode`, `sleepEnabled`: the mode bits and the SE bit of `SMCR`;
* `lcdAvailable`: the global `lcdAvailable` (a C truth value);
* `lcdOn`, `led1` .. `led4`: the display and the four LEDs;
* `counter`: the free-running counter read by `GetCounter`;
* `logs`: the records held by each logger, oldest first. -/
structure State where
  SREG : Nat
  reg16 : Reg16 → Nat
  TCCR3A : Nat
  TCCR3B : Nat
  TIMSK3 : Nat
  sleepMode : SleepMode
  sleepEnabled : Bool
  lcdAvailable : Nat
  lcdOn : Bool
  led1 : Bool
  led2 : Bool
  led3 : Bool
  led4 : Bool
  counter : Nat
  logs : Nat → List LogRecord

/-- The primitive steps executed by the functions of `utils.c`. -/
inductive Event where
  | readSREG : Event
  | writeSREG (v : Nat) : Event
  | cli : Event
  | sei : Event
  | write16 (reg : Reg16) (v : Nat) : Event
  | read16 (reg : Reg16) : Event
  | writeTCCR3A (v : Nat) : Event
  | writeTCCR3B (v : Nat) : Event
  | writeTIMSK3 (v : Nat) : Event
  | GetLCDState : Event
  | LCDOff : Event
  | LedOff (n : Nat) : Event
  | LedOn (n : Nat) : Event
  | set_sleep_mode (mode : SleepMode) : Event
  | sleep_enable : Event
  | sleep_cpu : Event
  | sleep_disable : Event
  | GetCounter : Event
  | LogByte4 (logger tag a b c d : Nat) : Event
  deriving DecidableEq, Repr

/-- A step of the ghost trace: the event and the state right before it. -/
structure Step where
  ev : Event
  pre : State

/-- Machine state plus the ghost trace of the steps executed so far. -/
structure Machine where
  st : State
  trace : List Step

/-- The global interrupt enable flag: bit 7 of a status-register value. -/
def IFlag (sreg : Nat) : Bool := sreg.testBit 7

/-- Record event `e`, with the current state as its snapshot. -/
def emit (e : Event) (m : Machine) : Machine :=
  { m with trace := m.trace ++ [⟨e, m.st⟩] }

/-! ## Primitive steps -/

/-- Reading `SREG` (the right-hand side of `sreg = SREG`). -/
def readSREG (m : Machine) : Nat × Machine :=
  (m.st.SREG, emit Event.readSREG m)

/-- The assignment `SREG = v`. -/
def writeSREG (v : Nat) (m : Machine) : Machine :=
  { st := { m.st with SREG := v }, trace := (emit (Event.writeSREG v) m).trace }

/-- The instruction `cli`: clears the global interrupt enable flag. -/
def cli (m : Machine) : Machine :=
  { st := { m.st with SREG := m.st.SREG &&& 0x7F }, trace := (emit Event.cli m).trace }

/-- The instruction `sei`: sets the global interrupt enable flag. -/
def sei (m : Machine) : Machine :=
  { st := { m.st with SREG := m.st.SREG ||| 0x80 }, trace := (emit Event.sei m).trace }

/-- The store `*reg = v` to a 16-bit register. -/
def write16 (reg : Reg16) (v : Nat) (m : Machine) : Machine :=
  { st := { m.st with reg16 := fun r => if r = reg then v else m.st.reg16 r },
    trace := (emit (Event.write16 reg v) m).trace }

/-- The load `*reg` from a 16-bit register. -/
def read16 (reg : Reg16) (m : Machine) : Nat × Machine :=
  (m.st.reg16 reg, emit (Event.read16 reg) m)

/-- The assignment `TCCR3A = v`. -/
def writeTCCR3A (v : Nat) (m : Machine) : Machine :=
  { st := { m.st with TCCR3A := v }, trace := (emit (Event.writeTCCR3A v) m).trace }

/-- The assignment `TCCR3B = v`. -/
def writeTCCR3B (v : Nat) (m : Machine) : Machine :=
  { st := { m.st with TCCR3B := v }, trace := (emit (Event.writeTCCR3B v) m).trace }

/-- The assignment `TIMSK3 = v`. -/
def writeTIMSK3 (v : Nat) (m : Machine) : Machine :=
  { st := { m.st with TIMSK3 := v }, trace := (emit (Event.writeTIMSK3 v) m).trace }

/-- Modelled from the spec: `GetLCDState` (scd_hal, not part of `utils.c`) is
the `query_display_state() -> state` collaborator; it reports zero when the
display is off and non-zero when it is on, and changes nothing. -/
def GetLCDState (m : Machine) : Nat × Machine :=
  ((if m.st.lcdOn then 1 else 0), emit Event.GetLCDState m)

/-- Modelled from the spec: `LCDOff` (scd_hal) is the `display_off()`
collaborator; it switches the display off. -/
def LCDOff (m : Machine) : Machine :=
  { st := { m.st with lcdOn := false }, trace := (emit Event.LCDOff m).trace }

/-- Modelled from the spec: `Led1Off` (scd_hal) is `indicator_1_off()`. -/
def Led1Off (m : Machine) : Machine :=
  { st := { m.st with led1 := false }, trace := (emit (Event.LedOff 1) m).trace }

/-- Modelled from the spec: `Led2Off` (scd_hal) is `indicator_2_off()`. -/
def Led2Off (m : Machine) : Machine :=
  { st := { m.st with led2 := false }, trace := (emit (Event.LedOff 2) m).trace }

/-- Modelled from the spec: `Led3Off` (scd_hal) is `indicator_3_off()`. -/
def Led3Off (m : Machine) : Machine :=
  { st := { m.st with led3 := false }, trace := (emit (Event.LedOff 3) m).trace }

/-- Modelled from the spec: `Led4Off` (scd_hal) is `indicator_4_off()`. -/
def Led4Off (m : Machine) : Machine :=
  { st := { m.st with led4 := false }, trace := (emit (Event.LedOff 4) m).trace }

/-- Modelled from the spec: `Led4On` (scd_hal) is `indicator_4_on()`. -/
def Led4On (m : Machine) : Machine :=
  { st := { m.st with led4 := true }, trace := (emit (Event.LedOn 4) m).trace }

/-- The avr-libc call `set_sleep_mode(mode)`: selects the sleep mode. -/
def set_sleep_mode (mode : SleepMode) (m : Machine) : Machine :=
  { st := { m.st with sleepMode := mode },
    trace := (emit (Event.set_sleep_mode mode) m).trace }

/-- The avr-libc call `sleep_enable()`: sets the sleep-enable latch. -/
def sleep_enable (m : Machine) : Machine :=
  { st := { m.st with sleepEnabled := true }, trace := (emit Event.sleep_enable m).trace }

/-- The avr-libc call `sleep_disable()`: clears the sleep-enable latch. -/
def sleep_disable (m : Machine) : Machine :=
  { st := { m.st with sleepEnabled := false }, trace := (emit Event.sleep_disable m).trace }

/-- The avr-libc call `sleep_cpu()`: the processor halts until an interrupt
wakes it.  Execution resumes after the handler has returned with `reti`,
which sets the global interrupt enable flag; `wake` is the status-register
content the handler leaves behind (any value: the environment chooses it). -/
def sleep_cpu (wake : Nat) (m : Machine) : Machine :=
  { st := { m.st with SREG := (wake % 256) ||| 0x80 },
    trace := (emit Event.sleep_cpu m).trace }

/-- Modelled from the spec: `GetCounter` (scd_hal) is the
`read_counter() -> 32-bit value` collaborator; it returns the free-running
counter as a `uint32_t` and changes nothing. -/
def GetCounter (m : Machine) : Nat × Machine :=
  (m.st.counter % 2 ^ 32, emit Event.GetCounter m)

/-- Modelled from the spec: `LogByte4` (scd_logger) is the
`append_record(logger_handle, category, byte0..byte3)` collaborator; it
appends one record with the given tag and the four bytes, in order, to the
log of `logger` and leaves every other log alone. -/
def LogByte4 (logger tag a b c d : Nat) (m : Machine) : Machine :=
  { st := { m.st with
      logs := fun l => if l = logger then m.st.logs l ++ [⟨tag, [a, b, c, d]⟩]
                       else m.st.logs l },
    trace := (emit (Event.LogByte4 logger tag a b c d) m).trace }

/-! ## The functions of `utils.c` -/

/-- `void Write16bitRegister(volatile uint16_t *reg, uint16_t value)`. -/
def Write16bitRegister (reg : Reg16) (value : Nat) (m : Machine) : Machine :=
  let value := value % 2 ^ 16        -- parameter of type uint16_t
  let r := readSREG m                -- sreg = SREG;
  let sreg := r.1 % 2 ^ 8            -- (uint8_t sreg)
  let m := cli r.2                   -- cli();
  let m := write16 reg value m       -- *reg = value;
  writeSREG sreg m                   -- SREG = sreg;

/-- `uint16_t Read16bitRegister(volatile uint16_t *reg)`. -/
def Read16bitRegister (reg : Reg16) (m : Machine) : Nat × Machine :=
  let r := readSREG m                -- sreg = SREG;
  let sreg := r.1 % 2 ^ 8            -- (uint8_t sreg)
  let m := cli r.2                   -- cli();
  let r := read16 reg m              -- i = *reg;
  let i := r.1 % 2 ^ 16              -- (uint16_t i)
  let m := writeSREG sreg r.2        -- SREG = sreg;
  (i, m)                             -- return i;

/-- `void SleepUntilTerminalClock()`.  `wake` is the environment input of
`sleep_cpu`. -/
def SleepUntilTerminalClock (wake : Nat) (m : Machine) : Machine :=
  let m := Write16bitRegister Reg16.OCR3A 100 m   -- Write16bitRegister(&OCR3A, 100);
  let m := Write16bitRegister Reg16.TCNT3 1 m     -- Write16bitRegister(&TCNT3, 1);
  let m := writeTCCR3A 0 m                        -- TCCR3A = 0;
  let m := writeTIMSK3 0x02 m                     -- TIMSK3 = 0x02;
  let m := writeTCCR3B 0x0F m                     -- TCCR3B = 0x0F;
  let r := readSREG m                             -- sreg = SREG;
  let sreg := r.1 % 2 ^ 8
  let r := GetLCDState r.2                        -- lcdstate = GetLCDState();
  let lcdstate := r.1 % 2 ^ 8
  let m := r.2
  -- if(lcdAvailable && lcdstate != 0) LCDOff();
  let m := if m.st.lcdAvailable ≠ 0 ∧ lcdstate ≠ 0 then LCDOff m else m
  let m := Led1Off m                              -- Led1Off();
  let m := Led2Off m                              -- Led2Off();
  let m := Led3Off m                              -- Led3Off();
  let m := Led4Off m                              -- Led4Off();
  let m := set_sleep_mode SleepMode.IDLE m        -- set_sleep_mode(SLEEP_MODE_IDLE);
  let m := cli m                                  -- cli();
  let m := sleep_enable m                         -- sleep_enable();
  let m := sei m                                  -- sei();
  let m := sleep_cpu wake m                       -- sleep_cpu();
  let m := sleep_disable m                        -- sleep_disable();
  let m := writeSREG sreg m                       -- SREG = sreg;
  let m := writeTIMSK3 0 m                        -- TIMSK3 = 0;
  let m := writeTCCR3B 0 m                        -- TCCR3B = 0;
  Led4On m                                        -- Led4On();

/-- `void SleepUntilCardInserted()`.  `wake` is the environment input of
`sleep_cpu`. -/
def SleepUntilCardInserted (wake : Nat) (m : Machine) : Machine :=
  let r := GetLCDState m                          -- lcdstate = GetLCDState();
  let lcdstate := r.1 % 2 ^ 8
  let m := r.2
  -- if(lcdAvailable && lcdstate != 0) LCDOff();
  let m := if m.st.lcdAvailable ≠ 0 ∧ lcdstate ≠ 0 then LCDOff m else m
  let m := Led1Off m                              -- Led1Off();
  let m := Led2Off m                              -- Led2Off();
  let m := Led3Off m                              -- Led3Off();
  let m := Led4Off m                              -- Led4Off();
  let r := readSREG m                             -- sreg = SREG;
  let sreg := r.1 % 2 ^ 8
  let m := set_sleep_mode SleepMode.PWR_DOWN r.2  -- set_sleep_mode(SLEEP_MODE_PWR_DOWN);
  let m := cli m                                  -- cli();
  let m := sleep_enable m                         -- sleep_enable();
  let m := sei m                                  -- sei();
  let m := sleep_cpu wake m                       -- sleep_cpu();
  let m := sleep_disable m                        -- sleep_disable();
  let m := writeSREG sreg m                       -- SREG = sreg;
  Led4On m                                        -- Led4On();

/-- `uint8_t LogCurrentTime(log_struct_t *logger)`.  The constants
`RET_ERR_PARAM` (scd_values.h) and `LOG_TIME_GENERAL` (scd_logger.h) are
parameters; `logger` is `none` for the NULL pointer. -/
def LogCurrentTime (RET_ERR_PARAM LOG_TIME_GENERAL : Nat) (logger : Option Nat)
    (m : Machine) : Nat × Machine :=
  match logger with
  | none => (RET_ERR_PARAM % 2 ^ 8, m)            -- return RET_ERR_PARAM;
  | some lg =>
    let r := GetCounter m                         -- time = GetCounter();
    let time := r.1 % 2 ^ 32
    let m := LogByte4 lg LOG_TIME_GENERAL
      (time &&& 0xFF)
      ((time >>> 8) &&& 0xFF)
      ((time >>> 16) &&& 0xFF)
      ((time >>> 24) &&& 0xFF) r.2
    (0, m)                                        -- return 0;

/-! ## Auxiliary definitions used in the statements -/

/-- The events of a list of steps, in order. -/
def events (t : List Step) : List Event := t.map Step.ev

/-- The steps executed between machine `m` and a later machine `m'`: what
`m'` has added to the trace of `m`. -/
def newSteps (m m' : Machine) : List Step := m'.trace.drop m.trace.length

/-- Whether the guard `lcdAvailable && lcdstate != 0` of the sleep routines
holds in state `s`, that is, whether `LCDOff` gets called. -/
def lcdOffCalled (s : State) : Bool := decide (s.lcdAvailable ≠ 0) && s.lcdOn

/-- The events of the quiesce phase shared by both sleep routines. -/
def quiesceEvents (lcdOff : Bool) : List Event :=
  Event.GetLCDState ::
    ((if lcdOff then [Event.LCDOff] else []) ++
      [Event.LedOff 1, Event.LedOff 2, Event.LedOff 3, Event.LedOff 4])

/-- The events of the suspend bracket shared by both sleep routines. -/
def bracketEvents : List Event :=
  [Event.cli, Event.sleep_enable, Event.sei, Event.sleep_cpu]

/-- An all-zero state with every peripheral off and empty logs. -/
def zeroState : State :=
  { SREG := 0, reg16 := fun _ => 0, TCCR3A := 0, TCCR3B := 0, TIMSK3 := 0,
    sleepMode := SleepMode.IDLE, sleepEnabled := false, lcdAvailable := 0,
    lcdOn := false, led1 := false, led2 := false, led3 := false, led4 := false,
    counter := 0, logs := fun _ => [] }

/-- A machine in `zeroState` with an empty trace. -/
def zeroMachine : Machine := { st := zeroState, trace := [] }

/-- The zero machine with the status register set to `v`. -/
def sregMachine (v : Nat) : Machine :=
  { zeroMachine with st := { zeroState with SREG := v } }

/-- The zero machine with the free-running counter at `0x01020304`. -/
def timeMachine : Machine :=
  { zeroMachine with st := { zeroState with counter := 0x01020304 } }

/-- A machine whose display is on while the display-present flag is clear,
with LEDs 1 to 3 on as well. -/
def lcdAbsentOn : Machine :=
  { zeroMachine with
    st := { zeroState with lcdAvailable := 0, lcdOn := true, led1 := true,
                           led2 := true, led3 := true } }

/-! ## The register accessors at instruction level, with interrupts

On the 8-bit AVR a 16-bit register is accessed with two 8-bit instructions,
and between any two instructions an interrupt handler runs if an interrupt
is pending and the global interrupt enable flag is set.  The definitions
below run `Write16bitRegister` and `Read16bitRegister` at that granularity,
against an arbitrary handler and an arbitrary schedule of pending
interrupts, so that a handler seeing or producing a half-accessed register
is expressible. -/

/-- The steps of the instruction-level execution of the register accessors:
the instructions of the function and the dispatch of an interrupt handler at
the boundary before instruction `k`. -/
inductive AccessEvent where
  | readSREG : AccessEvent
  | cli : AccessEvent
  | writeSREG (v : Nat) : AccessEvent
  | storeHigh (reg : Reg16) (b : Nat) : AccessEvent
  | storeLow (reg : Reg16) (b : Nat) : AccessEvent
  | loadLow (reg : Reg16) : AccessEvent
  | loadHigh (reg : Reg16) : AccessEvent
  | interrupt (k : Nat) : AccessEvent
  deriving DecidableEq, Repr

/-- A step of the instruction-level trace, with the state right before it. -/
structure AccessStep where
  ev : AccessEvent
  pre : State

/-- Machine state plus the instruction-level trace. -/
structure IMachine where
  st : State
  steps : List AccessStep

/-- The interrupt environment: the handler run at each instruction boundary
(any function of the state: it may read and write every register) and whether
an interrupt is pending there. -/
structure Interrupts where
  handler : Nat → State → State
  pending : Nat → Bool

/-- Whether an event is the dispatch of an interrupt handler. -/
def AccessEvent.isInterrupt : AccessEvent → Bool
  | AccessEvent.interrupt _ => true
  | _ => false

/-- The events of an instruction-level trace, in order. -/
def accessEvents (t : List AccessStep) : List AccessEvent := t.map AccessStep.ev

/-- Execute one instruction-level step: record `e` and apply `f`. -/
def istep (e : AccessEvent) (f : State → State) (m : IMachine) : IMachine :=
  { st := f m.st, steps := m.steps ++ [⟨e, m.st⟩] }

/-- The boundary before instruction `k`: if an interrupt is pending and the
interrupt flag is set, the handler runs (entered with the flag cleared by the
hardware, left with `reti`, which sets it); otherwise nothing happens. -/
def interrupt (env : Interrupts) (k : Nat) (m : IMachine) : IMachine :=
  if env.pending k = true ∧ IFlag m.st.SREG = true then
    istep (AccessEvent.interrupt k)
      (fun s => { env.handler k { s with SREG := s.SREG &&& 0x7F } with
                  SREG := (env.handler k { s with SREG := s.SREG &&& 0x7F }).SREG ||| 0x80 })
      m
  else m

/-- The common start of both accessors, up to the point where `cli` is about
to execute: boundary 0, the read of `SREG`, boundary 1. -/
def uptoCli (env : Interrupts) (m : IMachine) : IMachine :=
  interrupt env 1 (istep AccessEvent.readSREG id (interrupt env 0 m))

/-- Store byte `b` to the high byte of 16-bit register `reg`. -/
def storeHighByte (reg : Reg16) (b : Nat) (s : State) : State :=
  { s with reg16 := fun r => if r = reg then (b % 256) * 256 + s.reg16 r % 256
                             else s.reg16 r }

/-- Store byte `b` to the low byte of 16-bit register `reg`. -/
def storeLowByte (reg : Reg16) (b : Nat) (s : State) : State :=
  { s with reg16 := fun r => if r = reg then (s.reg16 r / 256 % 256) * 256 + b % 256
                             else s.reg16 r }

/-- `Write16bitRegister` at instruction level: the store `*reg = value` is
two byte stores (high byte first, as avr-gcc emits them), and every
instruction is preceded by an interrupt boundary. -/
def Write16bitRegisterI (env : Interrupts) (reg : Reg16) (value : Nat)
    (m : IMachine) : IMachine :=
  let value := value % 2 ^ 16        -- parameter of type uint16_t
  let m := interrupt env 0 m
  let sreg := m.st.SREG % 2 ^ 8
  let m := istep AccessEvent.readSREG id m                       -- sreg = SREG;
  let m := interrupt env 1 m
  let m := istep AccessEvent.cli
    (fun s => { s with SREG := s.SREG &&& 0x7F }) m              -- cli();
  let m := interrupt env 2 m
  let m := istep (AccessEvent.storeHigh reg (value / 256))
    (storeHighByte reg (value / 256)) m                          -- *reg = value; (high)
  let m := interrupt env 3 m
  let m := istep (AccessEvent.storeLow reg (value % 256))
    (storeLowByte reg (value % 256)) m                           -- *reg = value; (low)
  let m := interrupt env 4 m
  istep (AccessEvent.writeSREG sreg) (fun s => { s with SREG := sreg }) m   -- SREG = sreg;

/-- `Read16bitRegister` at instruction level: the load `i = *reg` is two byte
loads (low byte first, as avr-gcc emits them), and every instruction is
preceded by an interrupt boundary. -/
def Read16bitRegisterI (env : Interrupts) (reg : Reg16) (m : IMachine) : Nat × IMachine :=
  let m := interrupt env 0 m
  let sreg := m.st.SREG % 2 ^ 8
  let m := istep AccessEvent.readSREG id m                       -- sreg = SREG;
  let m := interrupt env 1 m
  let m := istep AccessEvent.cli
    (fun s => { s with SREG := s.SREG &&& 0x7F }) m              -- cli();
  let m := interrupt env 2 m
  let lo := m.st.reg16 reg % 256
  let m := istep (AccessEvent.loadLow reg) id m                  -- i = *reg; (low)
  let m := interrupt env 3 m
  let hi := m.st.reg16 reg / 256 % 256
  let m := istep (AccessEvent.loadHigh reg) id m                 -- i = *reg; (high)
  let i := hi * 256 + lo
  let m := interrupt env 4 m
  let m := istep (AccessEvent.writeSREG sreg) (fun s => { s with SREG := sreg }) m  -- SREG = sreg;
  (i, m)                                                         -- return i;

/-- The bare assignment `*reg = value` without the bracket of
`Write16bitRegister`: the same two byte stores, with an interrupt boundary
before each.  It is not a function of `utils.c`; it shows what the bracket
prevents. -/
def bareWrite16 (env : Interrupts) (reg : Reg16) (value : Nat) (m : IMachine) : IMachine :=
  let value := value % 2 ^ 16
  let m := interrupt env 0 m
  let m := istep (AccessEvent.storeHigh reg (value / 256))
    (storeHighByte reg (value / 256)) m
  let m := interrupt env 1 m
  istep (AccessEvent.storeLow reg (value % 256)) (storeLowByte reg (value % 256)) m

/-- The bare load `*reg` without the bracket of `Read16bitRegister`: the same
two byte loads, with an interrupt boundary before each.  It is not a function
of `utils.c`; it shows what the bracket prevents. -/
def bareRead16 (env : Interrupts) (reg : Reg16) (m : IMachine) : Nat × IMachine :=
  let m := interrupt env 0 m
  let lo := m.st.reg16 reg % 256
  let m := istep (AccessEvent.loadLow reg) id m
  let m := interrupt env 1 m
  let hi := m.st.reg16 reg / 256 % 256
  let m := istep (AccessEvent.loadHigh reg) id m
  (hi * 256 + lo, m)

/-- An interrupt environment that is always pending and whose handler at
boundary 1 writes `v` to `OCR3A`; it changes nothing else. -/
def writerEnv (v : Nat) : Interrupts :=
  { handler := fun k s =>
      if k = 1 then { s with reg16 := fun r => if r = Reg16.OCR3A then v else s.reg16 r }
      else s,
    pending := fun _ => true }

/-- An interrupt environment that is always pending and whose handler only
observes. -/
def observerEnv : Interrupts :=
  { handler := fun _ s => s, pending := fun _ => true }

/-- A state with interrupts enabled (`SREG = 0x80`) and `OCR3A = 0x00FF`. -/
def enabledState : State :=
  { zeroState with SREG := 0x80,
                   reg16 := fun r => if r = Reg16.OCR3A then 0x00FF else 0 }

/-! ## Basic facts -/

theorem emit_st (e : Event) (m : Machine) : (emit e m).st = m.st := rfl

theorem emit_trace (e : Event) (m : Machine) :
    (emit e m).trace = m.trace ++ [⟨e, m.st⟩] := rfl

/-- After `cli` the interrupt flag is clear. -/
theorem IFlag_cli (x : Nat) : IFlag (x &&& 0x7F) = false := by
  simp [IFlag, Nat.testBit_and]; intro _; decide

/-- After `sei` the interrupt flag is set. -/
theorem IFlag_sei (x : Nat) : IFlag (x ||| 0x80) = true := by
  simp [IFlag, Nat.testBit_or]; right; decide

/-- Four bytes taken low byte first from a 32-bit value reassemble to it. -/
theorem bytes_reassemble (t : Nat) (ht : t < 2 ^ 32) :
    (t &&& 0xFF) + 2 ^ 8 * ((t >>> 8) &&& 0xFF) + 2 ^ 16 * ((t >>> 16) &&& 0xFF)
      + 2 ^ 24 * ((t >>> 24) &&& 0xFF) = t := by
  have h : ∀ x : Nat, x &&& 0xFF = x % 256 := fun x => Nat.and_pow_two_sub_one_eq_mod x 8
  simp only [h, Nat.shiftRight_eq_div_pow]
  omega

/-! ## Traces only grow

Each function of `utils.c` extends the trace it is given, so `newSteps` is
exactly what the call has added. -/

theorem Write16bitRegister_trace (reg : Reg16) (V : Nat) (m : Machine) :
    (Write16bitRegister reg V m).trace = m.trace ++ newSteps m (Write16bitRegister reg V m) := by
  simp [newSteps, Write16bitRegister, readSREG, cli, write16, writeSREG, emit]

theorem Read16bitRegister_trace (reg : Reg16) (m : Machine) :
    (Read16bitRegister reg m).2.trace = m.trace ++ newSteps m (Read16bitRegister reg m).2 := by
  simp [newSteps, Read16bitRegister, readSREG, cli, read16, writeSREG, emit]

theorem LogCurrentTime_trace (E G : Nat) (logger : Option Nat) (m : Machine) :
    (LogCurrentTime E G logger m).2.trace =
      m.trace ++ newSteps m (LogCurrentTime E G logger m).2 := by
  cases logger <;> simp [newSteps, LogCurrentTime, GetCounter, LogByte4, emit]

theorem SleepUntilTerminalClock_trace (wake : Nat) (m : Machine) :
    (SleepUntilTerminalClock wake m).trace =
      m.trace ++ newSteps m (SleepUntilTerminalClock wake m) := by
  by_cases h : m.st.lcdAvailable = 0 <;> cases h' : m.st.lcdOn <;>
    simp [newSteps, SleepUntilTerminalClock, Write16bitRegister,
      readSREG, cli, sei, write16, writeSREG, writeTCCR3A, writeTCCR3B, writeTIMSK3,
      GetLCDState, LCDOff, Led1Off, Led2Off, Led3Off, Led4Off, Led4On, set_sleep_mode,
      sleep_enable, sleep_cpu, sleep_disable, emit, h, h']

theorem SleepUntilCardInserted_trace (wake : Nat) (m : Machine) :
    (SleepUntilCardInserted wake m).trace =
      m.trace ++ newSteps m (SleepUntilCardInserted wake m) := by
  by_cases h : m.st.lcdAvailable = 0 <;> cases h' : m.st.lcdOn <;>
    simp [newSteps, SleepUntilCardInserted,
      readSREG, cli, sei, writeSREG,
      GetLCDState, LCDOff, Led1Off, Led2Off, Led3Off, Led4Off, Led4On, set_sleep_mode,
      sleep_enable, sleep_cpu, sleep_disable, emit, h, h']

/-! ## `LogCurrentTime` -/

/-- C1: for a non-null logger `lg` and the 32-bit value `t` that `GetCounter`
returns, `LogCurrentTime` returns 0 and appends exactly one record to the log
of `lg`: it is tagged `LOG_TIME_GENERAL` and holds the bytes `t & 0xFF`,
`(t >> 8) & 0xFF`, `(t >> 16) & 0xFF`, `(t >> 24) & 0xFF` in this order, which
reassemble (little-endian) to `t`.  Every other log is unchanged, and the call
consists of one counter read followed by one `LogByte4`. -/
theorem LogCurrentTime_valid (E G lg t : Nat) (m : Machine)
    (ht : (GetCounter m).1 = t) :
    (LogCurrentTime E G (some lg) m).1 = 0 ∧
    (LogCurrentTime E G (some lg) m).2.st.logs lg =
      m.st.logs lg ++
        [⟨G, [t &&& 0xFF, (t >>> 8) &&& 0xFF, (t >>> 16) &&& 0xFF, (t >>> 24) &&& 0xFF]⟩] ∧
    (∀ l, l ≠ lg → (LogCurrentTime E G (some lg) m).2.st.logs l = m.st.logs l) ∧
    (t &&& 0xFF) + 2 ^ 8 * ((t >>> 8) &&& 0xFF) + 2 ^ 16 * ((t >>> 16) &&& 0xFF)
      + 2 ^ 24 * ((t >>> 24) &&& 0xFF) = t ∧
    events (newSteps m (LogCurrentTime E G (some lg) m).2) =
      [Event.GetCounter,
       Event.LogByte4 lg G (t &&& 0xFF) ((t >>> 8) &&& 0xFF) ((t >>> 16) &&& 0xFF)
         ((t >>> 24) &&& 0xFF)] := by
  have ht' : m.st.counter % 2 ^ 32 = t := ht
  have hlt : t < 2 ^ 32 := by
    rw [← ht']; exact Nat.mod_lt _ (by norm_num)
  subst ht'
  refine ⟨rfl, ?_, ?_, bytes_reassemble _ hlt, ?_⟩
  · simp [LogCurrentTime, LogByte4, GetCounter, emit]
  · intro l hl
    simp [LogCurrentTime, LogByte4, GetCounter, emit, hl]
  · simp [LogCurrentTime, LogByte4, GetCounter, emit, newSteps, events]

/-- Witness for C1: with the counter at `0x01020304` the appended record holds
the bytes `[0x04, 0x03, 0x02, 0x01]`. -/
theorem LogCurrentTime_valid_witness :
    (GetCounter timeMachine).1 = 0x01020304 ∧
    (LogCurrentTime 1 0 (some 0) timeMachine).1 = 0 ∧
    (LogCurrentTime 1 0 (some 0) timeMachine).2.st.logs 0 =
      timeMachine.st.logs 0 ++ [⟨0, [0x04, 0x03, 0x02, 0x01]⟩] :=
  ⟨rfl, (LogCurrentTime_valid 1 0 0 0x01020304 timeMachine rfl).1,
    (LogCurrentTime_valid 1 0 0 0x01020304 timeMachine rfl).2.1⟩

/-- C2: provided `RET_ERR_PARAM` is a non-zero status, `LogCurrentTime`
returns it if and only if the logger is NULL, and in that case the machine is
left exactly as it was: no record is appended and no step (in particular no
counter read) is executed. -/
theorem LogCurrentTime_null (E G : Nat) (logger : Option Nat) (m : Machine)
    (hE : E % 2 ^ 8 ≠ 0) :
    ((LogCurrentTime E G logger m).1 = E % 2 ^ 8 ↔ logger = none) ∧
    (logger = none →
      (LogCurrentTime E G logger m).2 = m ∧
      newSteps m (LogCurrentTime E G logger m).2 = []) := by
  cases logger with
  | none =>
    refine ⟨⟨fun _ => rfl, fun _ => rfl⟩, fun _ => ⟨rfl, ?_⟩⟩
    simp [LogCurrentTime, newSteps]
  | some lg =>
    refine ⟨⟨fun h => ?_, fun h => ?_⟩, fun h => ?_⟩
    · exact absurd (show (0 : Nat) = E % 2 ^ 8 from h).symm hE
    · cases h
    · cases h

/-- Witness for C2, at the NULL logger with `RET_ERR_PARAM = 1`. -/
theorem LogCurrentTime_null_witness :
    1 % 2 ^ 8 ≠ 0 ∧
    (((LogCurrentTime 1 0 none timeMachine).1 = 1 % 2 ^ 8 ↔ (none : Option Nat) = none) ∧
     ((none : Option Nat) = none →
       (LogCurrentTime 1 0 none timeMachine).2 = timeMachine ∧
       newSteps timeMachine (LogCurrentTime 1 0 none timeMachine).2 = [])) :=
  ⟨by decide, LogCurrentTime_null 1 0 none timeMachine (by decide)⟩

/-! ## Atomic 16-bit register access -/

/-- C3: for every 16-bit value `V`, every register handle and every machine
state (with an 8-bit status register), `Read16bitRegister` right after
`Write16bitRegister(reg, V)` on the same register returns exactly `V`; the
write changes nothing but that register: every other 16-bit register keeps
its value, and the state as a whole is the old one with `reg` set to `V`. -/
theorem Read16_after_Write16 (reg : Reg16) (V : Nat) (m : Machine)
    (hV : V < 2 ^ 16) (hS : m.st.SREG < 2 ^ 8) :
    (Read16bitRegister reg (Write16bitRegister reg V m)).1 = V ∧
    (∀ r, r ≠ reg → (Write16bitRegister reg V m).st.reg16 r = m.st.reg16 r) ∧
    (Write16bitRegister reg V m).st =
      { m.st with reg16 := fun r => if r = reg then V else m.st.reg16 r } := by
  have hV' : V % 65536 = V := Nat.mod_eq_of_lt hV
  have hS' : m.st.SREG % 256 = m.st.SREG := Nat.mod_eq_of_lt hS
  refine ⟨?_, ?_, ?_⟩
  · simp [Read16bitRegister, Write16bitRegister, readSREG, cli, write16, read16,
      writeSREG, emit, hV']
  · intro r hr
    simp [Write16bitRegister, readSREG, cli, write16, writeSREG, emit, hr]
  · simp [Write16bitRegister, readSREG, cli, write16, writeSREG, emit, hV', hS']

/-- Witness for C3: writing `0xBEEF` to `TCNT3` with status register `0x95`. -/
theorem Read16_after_Write16_witness :
    0xBEEF < 2 ^ 16 ∧ (sregMachine 0x95).st.SREG < 2 ^ 8 ∧
    ((Read16bitRegister Reg16.TCNT3
        (Write16bitRegister Reg16.TCNT3 0xBEEF (sregMachine 0x95))).1 = 0xBEEF ∧
     (∀ r, r ≠ Reg16.TCNT3 →
        (Write16bitRegister Reg16.TCNT3 0xBEEF (sregMachine 0x95)).st.reg16 r =
          (sregMachine 0x95).st.reg16 r) ∧
     (Write16bitRegister Reg16.TCNT3 0xBEEF (sregMachine 0x95)).st =
       { (sregMachine 0x95).st with
         reg16 := fun r => if r = Reg16.TCNT3 then 0xBEEF
                           else (sregMachine 0x95).st.reg16 r }) :=
  ⟨by decide, by decide,
    Read16_after_Write16 Reg16.TCNT3 0xBEEF (sregMachine 0x95) (by decide) (by decide)⟩

/-- C4: for every 8-bit value of `SREG`, the status register after
`Write16bitRegister` and after `Read16bitRegister` equals its value before
the call, so the interrupt flag is as the caller had it (disabled stays
disabled); and `Read16bitRegister` leaves every 16-bit register, the one it
reads included, unchanged. -/
theorem SREG_preserved (reg : Reg16) (V : Nat) (m : Machine)
    (hS : m.st.SREG < 2 ^ 8) :
    (Write16bitRegister reg V m).st.SREG = m.st.SREG ∧
    (Read16bitRegister reg m).2.st.SREG = m.st.SREG ∧
    IFlag (Write16bitRegister reg V m).st.SREG = IFlag m.st.SREG ∧
    IFlag (Read16bitRegister reg m).2.st.SREG = IFlag m.st.SREG ∧
    (IFlag m.st.SREG = false →
      IFlag (Write16bitRegister reg V m).st.SREG = false ∧
      IFlag (Read16bitRegister reg m).2.st.SREG = false) ∧
    (Read16bitRegister reg m).2.st.reg16 reg = m.st.reg16 reg ∧
    (Read16bitRegister reg m).2.st = m.st := by
  have hS' : m.st.SREG % 256 = m.st.SREG := Nat.mod_eq_of_lt hS
  have hW : (Write16bitRegister reg V m).st.SREG = m.st.SREG := by
    simp [Write16bitRegister, readSREG, cli, write16, writeSREG, emit, hS']
  have hR : (Read16bitRegister reg m).2.st = m.st := by
    simp [Read16bitRegister, readSREG, cli, read16, writeSREG, emit, hS']
  refine ⟨hW, by rw [hR], by rw [hW], by rw [hR], fun h => ⟨?_, ?_⟩, by rw [hR], hR⟩
  · rw [hW]; exact h
  · rw [hR]; exact h

/-- Witness for C4: status register `0x15` (interrupts disabled, other bits
set). -/
theorem SREG_preserved_witness :
    (sregMachine 0x15).st.SREG < 2 ^ 8 ∧
    ((Write16bitRegister Reg16.OCR3A 100 (sregMachine 0x15)).st.SREG =
       (sregMachine 0x15).st.SREG ∧
     (Read16bitRegister Reg16.OCR3A (sregMachine 0x15)).2.st.SREG =
       (sregMachine 0x15).st.SREG ∧
     IFlag (Write16bitRegister Reg16.OCR3A 100 (sregMachine 0x15)).st.SREG =
       IFlag (sregMachine 0x15).st.SREG ∧
     IFlag (Read16bitRegister Reg16.OCR3A (sregMachine 0x15)).2.st.SREG =
       IFlag (sregMachine 0x15).st.SREG ∧
     (IFlag (sregMachine 0x15).st.SREG = false →
       IFlag (Write16bitRegister Reg16.OCR3A 100 (sregMachine 0x15)).st.SREG = false ∧
       IFlag (Read16bitRegister Reg16.OCR3A (sregMachine 0x15)).2.st.SREG = false) ∧
     (Read16bitRegister Reg16.OCR3A (sregMachine 0x15)).2.st.reg16 Reg16.OCR3A =
       (sregMachine 0x15).st.reg16 Reg16.OCR3A ∧
     (Read16bitRegister Reg16.OCR3A (sregMachine 0x15)).2.st = (sregMachine 0x15).st) :=
  ⟨by decide, SREG_preserved Reg16.OCR3A 100 (sregMachine 0x15) (by decide)⟩

/-- The C-level steps of both accessors: read `SREG`, `cli`, the register
access, write back the value read (as a `uint8_t`).  The value saved is the
one `SREG` had on entry, and at the step of the access as well as at the
restoring step the interrupt flag is clear. -/
theorem atomic_access_steps (reg : Reg16) (V : Nat) (m : Machine) :
    events (newSteps m (Write16bitRegister reg V m)) =
      [Event.readSREG, Event.cli, Event.write16 reg (V % 2 ^ 16),
       Event.writeSREG (m.st.SREG % 2 ^ 8)] ∧
    events (newSteps m (Read16bitRegister reg m).2) =
      [Event.readSREG, Event.cli, Event.read16 reg,
       Event.writeSREG (m.st.SREG % 2 ^ 8)] ∧
    (∀ s ∈ newSteps m (Write16bitRegister reg V m),
      (s.ev = Event.readSREG → s.pre.SREG = m.st.SREG) ∧
      (s.ev = Event.write16 reg (V % 2 ^ 16) → IFlag s.pre.SREG = false) ∧
      (s.ev = Event.writeSREG (m.st.SREG % 2 ^ 8) → IFlag s.pre.SREG = false)) ∧
    (∀ s ∈ newSteps m (Read16bitRegister reg m).2,
      (s.ev = Event.readSREG → s.pre.SREG = m.st.SREG) ∧
      (s.ev = Event.read16 reg → IFlag s.pre.SREG = false) ∧
      (s.ev = Event.writeSREG (m.st.SREG % 2 ^ 8) → IFlag s.pre.SREG = false)) := by
  refine ⟨?_, ?_, ?_, ?_⟩
  · simp [events, newSteps, Write16bitRegister, readSREG, cli, write16, writeSREG, emit]
  · simp [events, newSteps, Read16bitRegister, readSREG, cli, read16, writeSREG, emit]
  · simp [newSteps, Write16bitRegister, readSREG, cli, write16, writeSREG, emit, IFlag_cli]
  · simp [newSteps, Read16bitRegister, readSREG, cli, read16, writeSREG, emit, IFlag_cli]


/-! ## Atomic 16-bit register access against interrupt handlers -/

/-- With the interrupt flag clear no handler is dispatched. -/
theorem interrupt_cleared (env : Interrupts) (k : Nat) (m : IMachine)
    (h : IFlag m.st.SREG = false) : interrupt env k m = m := by
  simp [interrupt, h]

/-- A boundary adds nothing but, possibly, one handler dispatch. -/
theorem interrupt_steps (env : Interrupts) (k : Nat) (m : IMachine) :
    (interrupt env k m).steps = m.steps ∨
    (interrupt env k m).steps = m.steps ++ [⟨AccessEvent.interrupt k, m.st⟩] := by
  unfold interrupt
  split
  · right; rfl
  · left; rfl

/-- Up to `cli`, starting from an empty trace, the steps are the read of
`SREG` and handler dispatches only. -/
theorem uptoCli_steps (env : Interrupts) (s0 : State) :
    (∀ s ∈ (uptoCli env ⟨s0, []⟩).steps,
      s.ev = AccessEvent.readSREG ∨ s.ev.isInterrupt = true) ∧
    (accessEvents (uptoCli env ⟨s0, []⟩).steps).filter (fun e => !e.isInterrupt) =
      [AccessEvent.readSREG] := by
  unfold uptoCli
  rcases interrupt_steps env 0 ⟨s0, []⟩ with h0 | h0 <;>
  rcases interrupt_steps env 1
    (istep AccessEvent.readSREG id (interrupt env 0 ⟨s0, []⟩)) with h1 | h1 <;>
  rw [h1] <;> simp [istep, h0, accessEvents, AccessEvent.isInterrupt]

/-- The tail of `Write16bitRegisterI`, from `cli` on. -/
theorem Write16bitRegisterI_tail (env : Interrupts) (reg : Reg16) (V : Nat) (m : IMachine) :
    (Write16bitRegisterI env reg V m).st.reg16 reg = V % 2 ^ 16 ∧
    (Write16bitRegisterI env reg V m).st.SREG = (interrupt env 0 m).st.SREG % 2 ^ 8 ∧
    accessEvents (Write16bitRegisterI env reg V m).steps =
      accessEvents (uptoCli env m).steps ++
      [AccessEvent.cli, AccessEvent.storeHigh reg (V % 2 ^ 16 / 256),
       AccessEvent.storeLow reg (V % 2 ^ 16 % 256),
       AccessEvent.writeSREG ((interrupt env 0 m).st.SREG % 2 ^ 8)] ∧
    (∀ s ∈ (Write16bitRegisterI env reg V m).steps,
      s ∈ (uptoCli env m).steps ∨ s.ev = AccessEvent.cli ∨
      (¬ s.ev.isInterrupt = true ∧ IFlag s.pre.SREG = false)) := by
  simp only [Write16bitRegisterI, uptoCli]
  generalize interrupt env 0 m = m0
  generalize interrupt env 1 (istep AccessEvent.readSREG id m0) = m1
  refine ⟨?_, ?_, ?_, ?_⟩
  · simp [interrupt, istep, storeHighByte, storeLowByte, IFlag_cli]
    omega
  · simp [interrupt, istep, storeHighByte, storeLowByte, IFlag_cli]
  · simp [interrupt, istep, storeHighByte, storeLowByte, accessEvents, IFlag_cli]
  · simp only [interrupt, istep, storeHighByte, storeLowByte, IFlag_cli]
    simp [IFlag_cli]
    intro s hs
    rcases hs with hs | hs | hs | hs | hs
    · exact Or.inl hs
    all_goals subst hs; simp [IFlag_cli, AccessEvent.isInterrupt]

/-- The tail of `Read16bitRegisterI`, from `cli` on. -/
theorem Read16bitRegisterI_tail (env : Interrupts) (reg : Reg16) (m : IMachine) :
    (Read16bitRegisterI env reg m).1 = (uptoCli env m).st.reg16 reg % 2 ^ 16 ∧
    (Read16bitRegisterI env reg m).2.st.reg16 = (uptoCli env m).st.reg16 ∧
    (Read16bitRegisterI env reg m).2.st.SREG = (interrupt env 0 m).st.SREG % 2 ^ 8 ∧
    accessEvents (Read16bitRegisterI env reg m).2.steps =
      accessEvents (uptoCli env m).steps ++
      [AccessEvent.cli, AccessEvent.loadLow reg, AccessEvent.loadHigh reg,
       AccessEvent.writeSREG ((interrupt env 0 m).st.SREG % 2 ^ 8)] ∧
    (∀ s ∈ (Read16bitRegisterI env reg m).2.steps,
      s ∈ (uptoCli env m).steps ∨ s.ev = AccessEvent.cli ∨
      (¬ s.ev.isInterrupt = true ∧ IFlag s.pre.SREG = false ∧
        s.pre.reg16 reg = (uptoCli env m).st.reg16 reg)) := by
  simp only [Read16bitRegisterI, uptoCli]
  generalize interrupt env 0 m = m0
  generalize interrupt env 1 (istep AccessEvent.readSREG id m0) = m1
  refine ⟨?_, ?_, ?_, ?_, ?_⟩
  · simp [interrupt, istep, IFlag_cli]
    omega
  · simp [interrupt, istep, IFlag_cli]
  · simp [interrupt, istep, IFlag_cli]
  · simp [interrupt, istep, accessEvents, IFlag_cli]
  · simp only [interrupt, istep, IFlag_cli]
    simp [IFlag_cli]
    intro s hs
    rcases hs with hs | hs | hs | hs | hs
    · exact Or.inl hs
    all_goals subst hs; simp [IFlag_cli, AccessEvent.isInterrupt]

/-- Without pending interrupts the instruction-level `Write16bitRegisterI`
ends in the state `Write16bitRegister` ends in. -/
theorem Write16bitRegisterI_quiet (env : Interrupts) (reg : Reg16) (V : Nat) (m : Machine)
    (hq : ∀ k, env.pending k = false) :
    (Write16bitRegisterI env reg V ⟨m.st, []⟩).st = (Write16bitRegister reg V m).st := by
  simp [Write16bitRegisterI, interrupt, hq, istep, storeHighByte, storeLowByte,
    Write16bitRegister, readSREG, cli, write16, writeSREG, emit]
  funext r
  split
  · omega
  · rfl

/-- Without pending interrupts the instruction-level `Read16bitRegisterI`
returns the value and the state `Read16bitRegister` returns. -/
theorem Read16bitRegisterI_quiet (env : Interrupts) (reg : Reg16) (m : Machine)
    (hq : ∀ k, env.pending k = false) :
    (Read16bitRegisterI env reg ⟨m.st, []⟩).1 = (Read16bitRegister reg m).1 ∧
    (Read16bitRegisterI env reg ⟨m.st, []⟩).2.st = (Read16bitRegister reg m).2.st := by
  simp [Read16bitRegisterI, interrupt, hq, istep,
    Read16bitRegister, readSREG, cli, read16, writeSREG, emit]
  omega

/-- Without the bracket a handler does observe a torn register: while
`0x0100` is being stored over `0x00FF` with interrupts enabled, the handler
dispatched between the two byte stores sees `0x01FF`; under the bracket of
`Write16bitRegisterI` the handlers run before `cli` and see `0x00FF`. -/
theorem bareWrite16_torn :
    (bareWrite16 observerEnv Reg16.OCR3A 0x0100 ⟨enabledState, []⟩).steps.map
        (fun s => (s.ev, s.pre.reg16 Reg16.OCR3A)) =
      [(AccessEvent.interrupt 0, 0x00FF), (AccessEvent.storeHigh Reg16.OCR3A 1, 0x00FF),
       (AccessEvent.interrupt 1, 0x01FF), (AccessEvent.storeLow Reg16.OCR3A 0, 0x01FF)] ∧
    (Write16bitRegisterI observerEnv Reg16.OCR3A 0x0100 ⟨enabledState, []⟩).steps.map
        (fun s => (s.ev, s.pre.reg16 Reg16.OCR3A)) =
      [(AccessEvent.interrupt 0, 0x00FF), (AccessEvent.readSREG, 0x00FF),
       (AccessEvent.interrupt 1, 0x00FF), (AccessEvent.cli, 0x00FF),
       (AccessEvent.storeHigh Reg16.OCR3A 1, 0x00FF),
       (AccessEvent.storeLow Reg16.OCR3A 0, 0x01FF),
       (AccessEvent.writeSREG 0x80, 0x0100)] := by
  decide

/-- Without the bracket a handler does produce a torn read: when it writes
`0x0100` over `0x00FF` between the two byte loads, the value read is
`0x01FF`; the bracketed `Read16bitRegisterI` returns `0x0100` there. -/
theorem bareRead16_torn :
    (bareRead16 (writerEnv 0x0100) Reg16.OCR3A ⟨enabledState, []⟩).1 = 0x01FF ∧
    (Read16bitRegisterI (writerEnv 0x0100) Reg16.OCR3A ⟨enabledState, []⟩).1 = 0x0100 := by
  decide

/-- C5: in both `Write16bitRegister` and `Read16bitRegister`, for every
initial status register, the steps are exactly: read `SREG`, `cli`, the
register access, write back the value read; the access stores `V` and returns
the register's contents, and at the access and at the restore the interrupt
flag is clear.  At instruction level, where the 16-bit access is two byte
accesses and a handler runs at any instruction boundary with an interrupt
pending and the flag set, this holds for every handler and every schedule:
the program steps are the same five, `cli`, the two byte accesses and the
restore are consecutive, every handler dispatched during the call runs before
`cli`, the flag is clear at both byte accesses and at the restore, the write
leaves exactly `V` in the register and the read returns the contents the
register has at both byte loads.  So no handler observes or produces a
partially written or partially read value.  Without pending interrupts the
instruction-level run agrees with the C-level one. -/
theorem atomic_access_no_tearing (env : Interrupts) (reg : Reg16) (V : Nat) (m : Machine) :
    -- C level
    (events (newSteps m (Write16bitRegister reg V m)) =
      [Event.readSREG, Event.cli, Event.write16 reg (V % 2 ^ 16),
       Event.writeSREG (m.st.SREG % 2 ^ 8)] ∧
     events (newSteps m (Read16bitRegister reg m).2) =
      [Event.readSREG, Event.cli, Event.read16 reg,
       Event.writeSREG (m.st.SREG % 2 ^ 8)] ∧
     (∀ s ∈ newSteps m (Write16bitRegister reg V m),
      (s.ev = Event.readSREG → s.pre.SREG = m.st.SREG) ∧
      (s.ev = Event.write16 reg (V % 2 ^ 16) → IFlag s.pre.SREG = false) ∧
      (s.ev = Event.writeSREG (m.st.SREG % 2 ^ 8) → IFlag s.pre.SREG = false)) ∧
     (∀ s ∈ newSteps m (Read16bitRegister reg m).2,
      (s.ev = Event.readSREG → s.pre.SREG = m.st.SREG) ∧
      (s.ev = Event.read16 reg → IFlag s.pre.SREG = false) ∧
      (s.ev = Event.writeSREG (m.st.SREG % 2 ^ 8) → IFlag s.pre.SREG = false)) ∧
     (Write16bitRegister reg V m).st.reg16 reg = V % 2 ^ 16 ∧
     (Read16bitRegister reg m).1 = m.st.reg16 reg % 2 ^ 16) ∧
    -- instruction level, write
    (accessEvents (Write16bitRegisterI env reg V ⟨m.st, []⟩).steps =
      accessEvents (uptoCli env ⟨m.st, []⟩).steps ++
      [AccessEvent.cli, AccessEvent.storeHigh reg (V % 2 ^ 16 / 256),
       AccessEvent.storeLow reg (V % 2 ^ 16 % 256),
       AccessEvent.writeSREG ((interrupt env 0 ⟨m.st, []⟩).st.SREG % 2 ^ 8)] ∧
     (accessEvents (Write16bitRegisterI env reg V ⟨m.st, []⟩).steps).filter
        (fun e => !e.isInterrupt) =
      [AccessEvent.readSREG, AccessEvent.cli,
       AccessEvent.storeHigh reg (V % 2 ^ 16 / 256),
       AccessEvent.storeLow reg (V % 2 ^ 16 % 256),
       AccessEvent.writeSREG ((interrupt env 0 ⟨m.st, []⟩).st.SREG % 2 ^ 8)] ∧
     (∀ s ∈ (Write16bitRegisterI env reg V ⟨m.st, []⟩).steps,
      s.ev.isInterrupt = true → s ∈ (uptoCli env ⟨m.st, []⟩).steps) ∧
     (∀ s ∈ (Write16bitRegisterI env reg V ⟨m.st, []⟩).steps,
      (s.ev = AccessEvent.storeHigh reg (V % 2 ^ 16 / 256) ∨
       s.ev = AccessEvent.storeLow reg (V % 2 ^ 16 % 256) ∨
       s.ev = AccessEvent.writeSREG ((interrupt env 0 ⟨m.st, []⟩).st.SREG % 2 ^ 8)) →
      IFlag s.pre.SREG = false) ∧
     (Write16bitRegisterI env reg V ⟨m.st, []⟩).st.reg16 reg = V % 2 ^ 16) ∧
    -- instruction level, read
    (accessEvents (Read16bitRegisterI env reg ⟨m.st, []⟩).2.steps =
      accessEvents (uptoCli env ⟨m.st, []⟩).steps ++
      [AccessEvent.cli, AccessEvent.loadLow reg, AccessEvent.loadHigh reg,
       AccessEvent.writeSREG ((interrupt env 0 ⟨m.st, []⟩).st.SREG % 2 ^ 8)] ∧
     (accessEvents (Read16bitRegisterI env reg ⟨m.st, []⟩).2.steps).filter
        (fun e => !e.isInterrupt) =
      [AccessEvent.readSREG, AccessEvent.cli, AccessEvent.loadLow reg,
       AccessEvent.loadHigh reg,
       AccessEvent.writeSREG ((interrupt env 0 ⟨m.st, []⟩).st.SREG % 2 ^ 8)] ∧
     (∀ s ∈ (Read16bitRegisterI env reg ⟨m.st, []⟩).2.steps,
      s.ev.isInterrupt = true → s ∈ (uptoCli env ⟨m.st, []⟩).steps) ∧
     (∀ s ∈ (Read16bitRegisterI env reg ⟨m.st, []⟩).2.steps,
      (s.ev = AccessEvent.loadLow reg ∨ s.ev = AccessEvent.loadHigh reg ∨
       s.ev = AccessEvent.writeSREG ((interrupt env 0 ⟨m.st, []⟩).st.SREG % 2 ^ 8)) →
      IFlag s.pre.SREG = false ∧
      (Read16bitRegisterI env reg ⟨m.st, []⟩).1 = s.pre.reg16 reg % 2 ^ 16) ∧
     (Read16bitRegisterI env reg ⟨m.st, []⟩).1 =
      (Read16bitRegisterI env reg ⟨m.st, []⟩).2.st.reg16 reg % 2 ^ 16) ∧
    -- agreement of the two levels
    ((∀ k, env.pending k = false) →
      (Write16bitRegisterI env reg V ⟨m.st, []⟩).st = (Write16bitRegister reg V m).st ∧
      (Read16bitRegisterI env reg ⟨m.st, []⟩).1 = (Read16bitRegister reg m).1 ∧
      (Read16bitRegisterI env reg ⟨m.st, []⟩).2.st = (Read16bitRegister reg m).2.st) := by
  obtain ⟨hpre, hfil⟩ := uptoCli_steps env m.st
  obtain ⟨hWv, -, hWe, hWs⟩ := Write16bitRegisterI_tail env reg V ⟨m.st, []⟩
  obtain ⟨hRv, hRr, -, hRe, hRs⟩ := Read16bitRegisterI_tail env reg ⟨m.st, []⟩
  obtain ⟨c1, c2, c3, c4⟩ := atomic_access_steps reg V m
  refine ⟨⟨c1, c2, c3, c4, ?_, ?_⟩, ⟨hWe, ?_, ?_, ?_, hWv⟩, ⟨hRe, ?_, ?_, ?_, ?_⟩, fun hq =>
    ⟨Write16bitRegisterI_quiet env reg V m hq, Read16bitRegisterI_quiet env reg m hq⟩⟩
  · simp [Write16bitRegister, readSREG, cli, write16, writeSREG, emit]
  · simp [Read16bitRegister, readSREG, cli, read16, writeSREG, emit]
  · rw [hWe, List.filter_append, hfil]
    simp [AccessEvent.isInterrupt]
  · intro s hs hi
    rcases hWs s hs with h | h | h
    · exact h
    · rw [h] at hi; simp [AccessEvent.isInterrupt] at hi
    · exact absurd hi h.1
  · intro s hs hev
    rcases hWs s hs with h | h | h
    · rcases hpre s h with h' | h' <;> rcases hev with e | e | e <;> rw [e] at h' <;>
        simp [AccessEvent.isInterrupt] at h'
    · rcases hev with e | e | e <;> rw [e] at h <;> simp at h
    · exact h.2
  · rw [hRe, List.filter_append, hfil]
    simp [AccessEvent.isInterrupt]
  · intro s hs hi
    rcases hRs s hs with h | h | h
    · exact h
    · rw [h] at hi; simp [AccessEvent.isInterrupt] at hi
    · exact absurd hi h.1
  · intro s hs hev
    rcases hRs s hs with h | h | h
    · rcases hpre s h with h' | h' <;> rcases hev with e | e | e <;> rw [e] at h' <;>
        simp [AccessEvent.isInterrupt] at h'
    · rcases hev with e | e | e <;> rw [e] at h <;> simp at h
    · exact ⟨h.2.1, by rw [hRv, h.2.2]⟩
  · rw [hRv, hRr]

/-! ## The sleep routines: final states, event sequences, snapshots -/

/-- The state in which `SleepUntilTerminalClock` returns. -/
theorem SleepUntilTerminalClock_st (wake : Nat) (m : Machine) :
    (SleepUntilTerminalClock wake m).st =
      { m.st with
        SREG := m.st.SREG % 2 ^ 8
        reg16 := fun r => if r = Reg16.TCNT3 then 1 else if r = Reg16.OCR3A then 100
                          else m.st.reg16 r
        TCCR3A := 0
        TCCR3B := 0
        TIMSK3 := 0
        sleepMode := SleepMode.IDLE
        sleepEnabled := false
        lcdOn := m.st.lcdOn && decide (m.st.lcdAvailable = 0)
        led1 := false
        led2 := false
        led3 := false
        led4 := true } := by
  by_cases h : m.st.lcdAvailable = 0 <;> cases h' : m.st.lcdOn <;>
    simp [SleepUntilTerminalClock, Write16bitRegister,
      readSREG, cli, sei, write16, writeSREG, writeTCCR3A, writeTCCR3B, writeTIMSK3,
      GetLCDState, LCDOff, Led1Off, Led2Off, Led3Off, Led4Off, Led4On, set_sleep_mode,
      sleep_enable, sleep_cpu, sleep_disable, emit, h, h']

/-- The state in which `SleepUntilCardInserted` returns. -/
theorem SleepUntilCardInserted_st (wake : Nat) (m : Machine) :
    (SleepUntilCardInserted wake m).st =
      { m.st with
        SREG := m.st.SREG % 2 ^ 8
        sleepMode := SleepMode.PWR_DOWN
        sleepEnabled := false
        lcdOn := m.st.lcdOn && decide (m.st.lcdAvailable = 0)
        led1 := false
        led2 := false
        led3 := false
        led4 := true } := by
  by_cases h : m.st.lcdAvailable = 0 <;> cases h' : m.st.lcdOn <;>
    simp [SleepUntilCardInserted,
      readSREG, cli, sei, writeSREG,
      GetLCDState, LCDOff, Led1Off, Led2Off, Led3Off, Led4Off, Led4On, set_sleep_mode,
      sleep_enable, sleep_cpu, sleep_disable, emit, h, h']

/-- The events of a call of `SleepUntilTerminalClock`, in order. -/
theorem SleepUntilTerminalClock_events (wake : Nat) (m : Machine) :
    events (newSteps m (SleepUntilTerminalClock wake m)) =
      [Event.readSREG, Event.cli, Event.write16 Reg16.OCR3A 100,
       Event.writeSREG (m.st.SREG % 2 ^ 8),
       Event.readSREG, Event.cli, Event.write16 Reg16.TCNT3 1,
       Event.writeSREG (m.st.SREG % 2 ^ 8),
       Event.writeTCCR3A 0, Event.writeTIMSK3 0x02, Event.writeTCCR3B 0x0F,
       Event.readSREG]
      ++ quiesceEvents (lcdOffCalled m.st)
      ++ [Event.set_sleep_mode SleepMode.IDLE]
      ++ bracketEvents
      ++ [Event.sleep_disable, Event.writeSREG (m.st.SREG % 2 ^ 8),
          Event.writeTIMSK3 0, Event.writeTCCR3B 0, Event.LedOn 4] := by
  by_cases h : m.st.lcdAvailable = 0 <;> cases h' : m.st.lcdOn <;>
    simp [events, newSteps, quiesceEvents, lcdOffCalled, bracketEvents,
      SleepUntilTerminalClock, Write16bitRegister,
      readSREG, cli, sei, write16, writeSREG, writeTCCR3A, writeTCCR3B, writeTIMSK3,
      GetLCDState, LCDOff, Led1Off, Led2Off, Led3Off, Led4Off, Led4On, set_sleep_mode,
      sleep_enable, sleep_cpu, sleep_disable, emit, h, h']

/-- The events of a call of `SleepUntilCardInserted`, in order. -/
theorem SleepUntilCardInserted_events (wake : Nat) (m : Machine) :
    events (newSteps m (SleepUntilCardInserted wake m)) =
      quiesceEvents (lcdOffCalled m.st)
      ++ [Event.readSREG, Event.set_sleep_mode SleepMode.PWR_DOWN]
      ++ bracketEvents
      ++ [Event.sleep_disable, Event.writeSREG (m.st.SREG % 2 ^ 8), Event.LedOn 4] := by
  by_cases h : m.st.lcdAvailable = 0 <;> cases h' : m.st.lcdOn <;>
    simp [events, newSteps, quiesceEvents, lcdOffCalled, bracketEvents,
      SleepUntilCardInserted,
      readSREG, cli, sei, writeSREG,
      GetLCDState, LCDOff, Led1Off, Led2Off, Led3Off, Led4Off, Led4On, set_sleep_mode,
      sleep_enable, sleep_cpu, sleep_disable, emit, h, h']

/-- The event of a step of a trace is among the events of the trace. -/
theorem ev_mem_events (s : Step) (t : List Step) (h : s ∈ t) : s.ev ∈ events t :=
  List.mem_map_of_mem Step.ev h


/-- What holds at the steps of `SleepUntilCardInserted`. -/
theorem SleepUntilCardInserted_snapshots (wake : Nat) (m : Machine) :
    ∀ s ∈ newSteps m (SleepUntilCardInserted wake m),
      (s.ev = Event.readSREG → s.pre.SREG = m.st.SREG) ∧
      (s.ev = Event.sleep_enable →
        IFlag s.pre.SREG = false ∧ s.pre.sleepMode = SleepMode.PWR_DOWN ∧
        s.pre.led1 = false ∧ s.pre.led2 = false ∧ s.pre.led3 = false ∧
        s.pre.led4 = false ∧ (s.pre.lcdAvailable ≠ 0 → s.pre.lcdOn = false)) ∧
      (s.ev = Event.sleep_cpu →
        IFlag s.pre.SREG = true ∧ s.pre.sleepEnabled = true ∧
        s.pre.sleepMode = SleepMode.PWR_DOWN) := by
  by_cases h : m.st.lcdAvailable = 0 <;> cases h' : m.st.lcdOn <;>
    simp [newSteps, SleepUntilCardInserted,
      readSREG, cli, sei, writeSREG,
      GetLCDState, LCDOff, Led1Off, Led2Off, Led3Off, Led4Off, Led4On, set_sleep_mode,
      sleep_enable, sleep_cpu, sleep_disable, emit, h, h', IFlag_cli, IFlag_sei]


/-! ## The sleep routines: the claims -/

/-- C6, counterexample: with the display on and the display-present flag
clear, both sleep routines return with the display still on, so the claimed
post-resume state (LED 4 on, LEDs 1 to 3 and the display off) does not hold. -/
theorem display_stays_on_when_absent :
    ¬ ((SleepUntilTerminalClock 0 lcdAbsentOn).st.led4 = true ∧
       (SleepUntilTerminalClock 0 lcdAbsentOn).st.led1 = false ∧
       (SleepUntilTerminalClock 0 lcdAbsentOn).st.led2 = false ∧
       (SleepUntilTerminalClock 0 lcdAbsentOn).st.led3 = false ∧
       (SleepUntilTerminalClock 0 lcdAbsentOn).st.lcdOn = false) ∧
    ¬ ((SleepUntilCardInserted 0 lcdAbsentOn).st.led4 = true ∧
       (SleepUntilCardInserted 0 lcdAbsentOn).st.led1 = false ∧
       (SleepUntilCardInserted 0 lcdAbsentOn).st.led2 = false ∧
       (SleepUntilCardInserted 0 lcdAbsentOn).st.led3 = false ∧
       (SleepUntilCardInserted 0 lcdAbsentOn).st.lcdOn = false) := by
  decide

/-- C6, amended: when either sleep routine returns, LED 4 is on and LEDs 1, 2
and 3 are off, whatever the state before; the display is on exactly when it
was on before and the display-present flag `lcdAvailable` is zero (so it is
off whenever a display is present or it was off already). -/
theorem post_resume_peripherals (wake : Nat) (m : Machine) :
    ((SleepUntilTerminalClock wake m).st.led4 = true ∧
     (SleepUntilTerminalClock wake m).st.led1 = false ∧
     (SleepUntilTerminalClock wake m).st.led2 = false ∧
     (SleepUntilTerminalClock wake m).st.led3 = false ∧
     ((SleepUntilTerminalClock wake m).st.lcdOn = true ↔
       (m.st.lcdAvailable = 0 ∧ m.st.lcdOn = true))) ∧
    ((SleepUntilCardInserted wake m).st.led4 = true ∧
     (SleepUntilCardInserted wake m).st.led1 = false ∧
     (SleepUntilCardInserted wake m).st.led2 = false ∧
     (SleepUntilCardInserted wake m).st.led3 = false ∧
     ((SleepUntilCardInserted wake m).st.lcdOn = true ↔
       (m.st.lcdAvailable = 0 ∧ m.st.lcdOn = true))) := by
  rw [SleepUntilTerminalClock_st, SleepUntilCardInserted_st]
  simp [and_comm]

/-- C7, counterexample: `SleepUntilTerminalClock` run on the zero machine
appends a record to no logger at all. -/
theorem clock_wait_appends_no_record :
    ¬ ∃ lg r, (SleepUntilTerminalClock 0 zeroMachine).st.logs lg =
        zeroMachine.st.logs lg ++ [r] := by
  rintro ⟨lg, r, h⟩
  have h0 : (SleepUntilTerminalClock 0 zeroMachine).st.logs lg = [] := rfl
  rw [h0] at h
  simp [zeroMachine, zeroState] at h

/-- C7, amended: neither sleep routine logs.  On return from
`SleepUntilTerminalClock`, as from `SleepUntilCardInserted`, every logger
holds exactly the records it held on entry, and no step of the call reads
the free-running counter or calls `LogByte4`. -/
theorem sleep_routines_do_not_log (wake : Nat) (m : Machine) :
    (SleepUntilTerminalClock wake m).st.logs = m.st.logs ∧
    (SleepUntilCardInserted wake m).st.logs = m.st.logs ∧
    (∀ s ∈ newSteps m (SleepUntilTerminalClock wake m),
      s.ev ≠ Event.GetCounter ∧ ∀ lg t a b c d, s.ev ≠ Event.LogByte4 lg t a b c d) ∧
    (∀ s ∈ newSteps m (SleepUntilCardInserted wake m),
      s.ev ≠ Event.GetCounter ∧ ∀ lg t a b c d, s.ev ≠ Event.LogByte4 lg t a b c d) := by
  refine ⟨by rw [SleepUntilTerminalClock_st], by rw [SleepUntilCardInserted_st], ?_, ?_⟩
  · intro s hs
    have he := ev_mem_events s _ hs
    rw [SleepUntilTerminalClock_events] at he
    refine ⟨fun hc => ?_, fun lg t a b c d hc => ?_⟩ <;>
      (rw [hc] at he; cases hl : lcdOffCalled m.st <;> rw [hl] at he <;>
        simp [quiesceEvents, bracketEvents] at he)
  · intro s hs
    have he := ev_mem_events s _ hs
    rw [SleepUntilCardInserted_events] at he
    refine ⟨fun hc => ?_, fun lg t a b c d hc => ?_⟩ <;>
      (rw [hc] at he; cases hl : lcdOffCalled m.st <;> rw [hl] at he <;>
        simp [quiesceEvents, bracketEvents] at he)

/-- C9: in `SleepUntilCardInserted`, from any initial state, the processor
suspends exactly once, with `SLEEP_MODE_PWR_DOWN` selected at that step (and
still on return); no step of the call writes or reads a 16-bit register or
writes `TCCR3A`, `TCCR3B` or `TIMSK3`, and on return `OCR3A`, `TCNT3` (indeed
every 16-bit register), `TCCR3A`, `TCCR3B` and `TIMSK3` hold the values they
had on entry. -/
theorem card_presence_frame (wake : Nat) (m : Machine) :
    (events (newSteps m (SleepUntilCardInserted wake m))).count Event.sleep_cpu = 1 ∧
    (∀ s ∈ newSteps m (SleepUntilCardInserted wake m), s.ev = Event.sleep_cpu →
      s.pre.sleepMode = SleepMode.PWR_DOWN) ∧
    (SleepUntilCardInserted wake m).st.sleepMode = SleepMode.PWR_DOWN ∧
    (∀ s ∈ newSteps m (SleepUntilCardInserted wake m),
      (∀ r v, s.ev ≠ Event.write16 r v) ∧ (∀ r, s.ev ≠ Event.read16 r) ∧
      (∀ v, s.ev ≠ Event.writeTCCR3A v) ∧ (∀ v, s.ev ≠ Event.writeTCCR3B v) ∧
      (∀ v, s.ev ≠ Event.writeTIMSK3 v)) ∧
    (SleepUntilCardInserted wake m).st.reg16 Reg16.OCR3A = m.st.reg16 Reg16.OCR3A ∧
    (SleepUntilCardInserted wake m).st.reg16 Reg16.TCNT3 = m.st.reg16 Reg16.TCNT3 ∧
    (SleepUntilCardInserted wake m).st.reg16 = m.st.reg16 ∧
    (SleepUntilCardInserted wake m).st.TCCR3A = m.st.TCCR3A ∧
    (SleepUntilCardInserted wake m).st.TCCR3B = m.st.TCCR3B ∧
    (SleepUntilCardInserted wake m).st.TIMSK3 = m.st.TIMSK3 := by
  refine ⟨?_, ?_, by rw [SleepUntilCardInserted_st], ?_,
    by rw [SleepUntilCardInserted_st], by rw [SleepUntilCardInserted_st],
    by rw [SleepUntilCardInserted_st], by rw [SleepUntilCardInserted_st],
    by rw [SleepUntilCardInserted_st], by rw [SleepUntilCardInserted_st]⟩
  · rw [SleepUntilCardInserted_events]
    cases lcdOffCalled m.st <;> simp [quiesceEvents, bracketEvents]
  · intro s hs hev
    exact ((SleepUntilCardInserted_snapshots wake m s hs).2.2 hev).2.2
  · intro s hs
    have he := ev_mem_events s _ hs
    rw [SleepUntilCardInserted_events] at he
    refine ⟨fun r v hc => ?_, fun r hc => ?_, fun v hc => ?_, fun v hc => ?_,
        fun v hc => ?_⟩ <;>
      (rw [hc] at he; cases hl : lcdOffCalled m.st <;> rw [hl] at he <;>
        simp [quiesceEvents, bracketEvents] at he)

end SCD
